import Mathlib

/-!
# he_basic_viewer: scene-graph traversal and GPU-buffer preparation

A shallow embedding of `src/main.cpp` and `src/interface.cpp`.

* Floating-point scalars (`A3DDouble`, `float`, `GLdouble`) are exact rationals.
* `A3DUns32`, `GLuint` and `size_t` values are natural numbers; arithmetic that
  the machine performs in 32 or 64 bits carries an explicit `%`.
* A read through a pointer past the end of its array is undefined behaviour and
  is modelled by `none`.
* Every call of `he_traverse_tree` has its own uninitialised local object; the
  initial contents are an argument of the traversal.
* Standard output is a list of characters.
-/

namespace HeBasicViewer

/-! ## Scalars and machine integers -/

/-- Exact-arithmetic stand-in for `A3DDouble`, `float` and `GLdouble`. -/
abbrev A3DDouble := ℚ

/-- Number of values of a 32-bit unsigned integer (`A3DUns32`, `GLuint`). -/
def UNS32_RANGE : Nat := 2 ^ 32

/-- Number of values of `size_t` on the 64-bit target. -/
def SIZE_T_RANGE : Nat := 2 ^ 64

/-- Largest value of `int` and of `GLsizei`. -/
def INT_MAX : Nat := 2 ^ 31 - 1

/-- The conversion `(GLsizei)n` of a `size_t` to the signed 32-bit `GLsizei`:
the low 32 bits read in two's complement. -/
def to_GLsizei (n : Nat) : Int :=
  if n % UNS32_RANGE ≤ INT_MAX then ((n % UNS32_RANGE : Nat) : Int)
  else ((n % UNS32_RANGE : Nat) : Int) - (UNS32_RANGE : Int)

/-! ## Mesh data (SDK type) -/

/-- Modelled from the spec: the SDK type `A3DMeshData` is declared in
`A3DSDKIncludes.h`, which is not part of the sources; only the members read by
`ogl_mesh_data_to_rendering` are kept. "Mesh data: a flat array representation
(coordinates, normals, per-face triangle counts, vertex indices)". A pointer
member is the list of the entries allocated behind it. -/
structure A3DMeshData where
  m_uiCoordSize : Nat
  m_pdCoords : List A3DDouble
  m_uiNormalSize : Nat
  m_pdNormals : List A3DDouble
  m_uiFaceSize : Nat
  m_puiTriangleCountPerFace : List Nat
  m_puiVertexIndicesPerFace : List Nat
deriving DecidableEq

/-- Modelled from the spec: "array lengths match SDK-reported counts", and every
`A3DUns32` member holds a 32-bit value. -/
def A3DMeshData.SdkCounts (m : A3DMeshData) : Prop :=
  m.m_uiCoordSize < UNS32_RANGE ∧ m.m_pdCoords.length = m.m_uiCoordSize ∧
  m.m_uiNormalSize < UNS32_RANGE ∧ m.m_pdNormals.length = m.m_uiNormalSize ∧
  m.m_uiFaceSize < UNS32_RANGE ∧ m.m_puiTriangleCountPerFace.length = m.m_uiFaceSize ∧
  (∀ c ∈ m.m_puiTriangleCountPerFace, c < UNS32_RANGE) ∧
  (∀ v ∈ m.m_puiVertexIndicesPerFace, v < UNS32_RANGE)

instance (m : A3DMeshData) : Decidable m.SdkCounts := by
  unfold A3DMeshData.SdkCounts
  infer_instance

/-! ## `ogl_mesh_data_to_rendering` (interface.cpp:45-60) -/

/-- The range constructor `std::vector<T>(p, p + n)`: the first `n` entries
behind `p`; reading past the allocation is undefined. -/
def vector_from_range {α : Type} (p : List α) (n : Nat) : Option (List α) :=
  if n ≤ p.length then some (p.take n) else none

/-- The loop of interface.cpp:53-55, `remaining = m_uiFaceSize - face_i`
iterations before the exit test fails:
`n_indices += 3 * m_puiTriangleCountPerFace[face_i]`, the product in
`A3DUns32`, the sum in `size_t`. -/
def n_indices_loop (m_puiTriangleCountPerFace : List Nat) :
    (remaining face_i n_indices : Nat) → Option Nat
  | 0, _, n_indices => some n_indices
  | remaining + 1, face_i, n_indices =>
    match m_puiTriangleCountPerFace[face_i]? with
    | none => none
    | some count =>
      n_indices_loop m_puiTriangleCountPerFace remaining (face_i + 1)
        ((n_indices + (3 * count) % UNS32_RANGE) % SIZE_T_RANGE)

/-- The value of `n_indices` after the loop (interface.cpp:52-55). -/
def n_indices (mesh_data : A3DMeshData) : Option Nat :=
  n_indices_loop mesh_data.m_puiTriangleCountPerFace mesh_data.m_uiFaceSize 0 0

/-- The three buffers handed to `ogl_rendering_to_gpu`. -/
structure GpuBuffers where
  index_buffer : List Nat
  vertex_buffer : List A3DDouble
  normal_buffer : List A3DDouble
deriving DecidableEq

/-- The buffers built at interface.cpp:47-56. -/
def mesh_buffers (mesh_data : A3DMeshData) : Option GpuBuffers :=
  match vector_from_range mesh_data.m_pdCoords mesh_data.m_uiCoordSize with
  | none => none
  | some vertex_buffer =>
    match vector_from_range mesh_data.m_pdNormals mesh_data.m_uiNormalSize with
    | none => none
    | some normal_buffer =>
      match n_indices mesh_data with
      | none => none
      | some n =>
        match vector_from_range mesh_data.m_puiVertexIndicesPerFace n with
        | none => none
        | some index_buffer => some ⟨index_buffer, vertex_buffer, normal_buffer⟩

/-- The GPU as seen by this code: `ogl_rendering_to_gpu` (declared in
ogl_rendering.hpp:45, defined outside the sources) returns an identifier that
may depend on everything uploaded before. -/
abbrev GpuUploader := List GpuBuffers → GpuBuffers → Nat

/-- What a call of `ogl_mesh_data_to_rendering` does: the buffers it uploads,
the returned pair and the uploads made so far. -/
structure MeshRendering where
  uploaded : GpuBuffers
  first : Nat
  second : Int
  gpu : List GpuBuffers

/-- The function `ogl_mesh_data_to_rendering` of interface.cpp:45-60. -/
def ogl_mesh_data_to_rendering (ogl_rendering_to_gpu : GpuUploader)
    (gpu : List GpuBuffers) (mesh_data : A3DMeshData) : Option MeshRendering :=
  match mesh_buffers mesh_data with
  | none => none
  | some b =>
    let renderable_id := ogl_rendering_to_gpu gpu b
    some ⟨b, renderable_id, to_GLsizei b.index_buffer.length, gpu ++ [b]⟩

/-! ## linmath.h -/

/-- The type `vec3` of linmath.h: `float[3]`. -/
abbrev vec3 := Fin 3 → A3DDouble

/-- The type `vec4` of linmath.h: `float[4]`. -/
abbrev vec4 := Fin 4 → A3DDouble

/-- The type `mat4x4` of linmath.h: `vec4[4]`, so `M c r` is row `r` of column
`c` (column-major). -/
abbrev mat4x4 := Fin 4 → vec4

/-- Modelled from the spec: `vec3_mul_cross` of linmath.h (not part of the
sources), the cross product of "matrix arithmetic". -/
def vec3_mul_cross (a b : vec3) : vec3 :=
  ![a 1 * b 2 - a 2 * b 1, a 2 * b 0 - a 0 * b 2, a 0 * b 1 - a 1 * b 0]

/-- Modelled from the spec: `mat4x4_identity` of linmath.h (not part of the
sources): one on the diagonal, zero elsewhere. -/
def mat4x4_identity : mat4x4 := fun i j => if i = j then 1 else 0

/-- Modelled from the spec: `mat4x4_dup` of linmath.h (not part of the
sources), "array copying" of the sixteen entries. -/
def mat4x4_dup (N : mat4x4) : mat4x4 := fun i j => N i j

/-- Modelled from the spec: `vec4_dup` of linmath.h (not part of the sources),
"array copying" of the four entries. -/
def vec4_dup (v : vec4) : vec4 := fun i => v i

/-! ## SDK data read by the extraction functions -/

/-- Modelled from the spec: the SDK type `A3DVector3dData`. -/
structure A3DVector3dData where
  m_dX : A3DDouble
  m_dY : A3DDouble
  m_dZ : A3DDouble
deriving DecidableEq

/-- Modelled from the spec: the SDK type `A3DMiscCartesianTransformationData`,
"column vectors/scale/mirror-flag/origin". -/
structure A3DMiscCartesianTransformationData where
  m_sOrigin : A3DVector3dData
  m_sXVector : A3DVector3dData
  m_sYVector : A3DVector3dData
  m_sScale : A3DVector3dData
  m_ucBehaviour : Nat
deriving DecidableEq

/-- Modelled from the spec: the SDK type `A3DGraphRgbColorData`. -/
structure A3DGraphRgbColorData where
  m_dRed : A3DDouble
  m_dGreen : A3DDouble
  m_dBlue : A3DDouble
deriving DecidableEq

/-- Modelled from the spec: the SDK type `A3DGraphStyleData`; only the member
read by `he_extract_color` is kept. -/
structure A3DGraphStyleData where
  m_uiRgbColorIndex : Nat
deriving DecidableEq

/-- What the surrounding libraries fix for a run: the SDK constant
`kA3DTransformationMirror`, the SDK's global colour table behind
`A3DGlobalGetGraphRgbColorData` (`none`: a status other than `A3D_SUCCESS`),
and the text `operator<<` prints for a `double`. -/
structure Sdk where
  kA3DTransformationMirror : Nat
  A3DGlobalGetGraphRgbColorData : Nat → Option A3DGraphRgbColorData
  show_double : A3DDouble → List Char

/-- Modelled from the spec: a node of the scene tree, "an entity in the CAD
model's scene tree, possibly carrying geometry, a local/net transform, and a net
color". Each field is the answer of the SDK call named after it; `none` is a
status other than `A3D_SUCCESS` (for the name also a null string, for the net
transformation a null handle). The code asserts that
`A3DTreeNodeGetChildren` succeeds (main.cpp:150), that a non-null net
transformation is Cartesian (main.cpp:206) and that its data can be read
(main.cpp:211); the fields `children` and `net_transformation` hold exactly
the answers that pass these assertions. -/
inductive A3DTreeNode where
  | mk (name : Option (List Char)) (type_msg : Option (List Char))
      (geometry : Option A3DMeshData) (net_style : Option A3DGraphStyleData)
      (net_transformation : Option A3DMiscCartesianTransformationData)
      (children : List A3DTreeNode)

/-- Answer of `A3DTreeNodeGetName`. -/
def A3DTreeNode.name : A3DTreeNode → Option (List Char)
  | .mk n _ _ _ _ _ => n

/-- Answer of `A3DTreeNodeGetEntity`, `A3DEntityGetType` and
`A3DMiscGetEntityTypeMsg`. -/
def A3DTreeNode.type_msg : A3DTreeNode → Option (List Char)
  | .mk _ t _ _ _ _ => t

/-- Answer of `A3DTreeNodeGetGeometry`. -/
def A3DTreeNode.geometry : A3DTreeNode → Option A3DMeshData
  | .mk _ _ g _ _ _ => g

/-- Answer of `A3DTreeNodeGetNetStyle`. -/
def A3DTreeNode.net_style : A3DTreeNode → Option A3DGraphStyleData
  | .mk _ _ _ s _ _ => s

/-- Answer of `A3DTreeNodeGetNetTransformation` and
`A3DMiscCartesianTransformationGet`. -/
def A3DTreeNode.net_transformation :
    A3DTreeNode → Option A3DMiscCartesianTransformationData
  | .mk _ _ _ _ t _ => t

/-- Answer of `A3DTreeNodeGetChildren`. -/
def A3DTreeNode.children : A3DTreeNode → List A3DTreeNode
  | .mk _ _ _ _ _ c => c

/-! ## Interface.hpp and ogl_rendering.hpp -/

/-- The struct `MeshObject` of Interface.hpp:21-25. -/
structure MeshObject where
  matrix_position : mat4x4
  mesh : A3DMeshData
  color : vec4
deriving DecidableEq

/-- The struct `TraverseData` of Interface.hpp:30-32. -/
structure TraverseData where
  objects : List MeshObject
deriving DecidableEq

/-- The struct `oglSceneObject` of ogl_rendering.hpp:17-23. -/
structure oglSceneObject where
  mat_transform_model : mat4x4
  color : vec4
  gl_vao : Nat
  gl_indices_count : Int
deriving DecidableEq

/-! ## `he_extract_position` (main.cpp:190-244) -/

/-- The `else` branch of `he_extract_position` (main.cpp:214-239). -/
def cartesian_matrix (sdk : Sdk) (data : A3DMiscCartesianTransformationData) : mat4x4 :=
  let x_vector : vec3 := ![data.m_sXVector.m_dX, data.m_sXVector.m_dY, data.m_sXVector.m_dZ]
  let y_vector : vec3 := ![data.m_sYVector.m_dX, data.m_sYVector.m_dY, data.m_sYVector.m_dZ]
  let z_vector : vec3 := vec3_mul_cross x_vector y_vector
  let mirror : A3DDouble :=
    if data.m_ucBehaviour &&& sdk.kA3DTransformationMirror ≠ 0 then -1 else 1
  ![![data.m_sXVector.m_dX * data.m_sScale.m_dX,
      data.m_sXVector.m_dY * data.m_sScale.m_dX,
      data.m_sXVector.m_dZ * data.m_sScale.m_dX,
      0],
    ![data.m_sYVector.m_dX * data.m_sScale.m_dY,
      data.m_sYVector.m_dY * data.m_sScale.m_dY,
      data.m_sYVector.m_dZ * data.m_sScale.m_dY,
      0],
    ![mirror * z_vector 0 * data.m_sScale.m_dZ,
      mirror * z_vector 1 * data.m_sScale.m_dZ,
      mirror * z_vector 2 * data.m_sScale.m_dZ,
      0],
    ![data.m_sOrigin.m_dX, data.m_sOrigin.m_dY, data.m_sOrigin.m_dZ, 1]]

/-- The function `he_extract_position` of main.cpp:190-244; both branches write
all sixteen entries of `mat_result`. -/
def he_extract_position (sdk : Sdk) (hnd_node : A3DTreeNode) : mat4x4 :=
  match hnd_node.net_transformation with
  | none => mat4x4_identity
  | some data => cartesian_matrix sdk data

/-! ## `he_extract_color` (main.cpp:158-188) -/

/-- The function `he_extract_color` of main.cpp:158-188, on standard output and
on the caller's array `color_result`. -/
def he_extract_color (sdk : Sdk) (hnd_node : A3DTreeNode)
    (cout : List Char) (color_result : vec4) : List Char × vec4 :=
  let cout := cout ++ "Color: ".toList
  match hnd_node.net_style with
  | some node_style =>
    match sdk.A3DGlobalGetGraphRgbColorData node_style.m_uiRgbColorIndex with
    | some color =>
      (cout ++ "RGB(".toList ++ sdk.show_double color.m_dRed ++ ";".toList
          ++ sdk.show_double color.m_dGreen ++ ";".toList
          ++ sdk.show_double color.m_dBlue ++ ")".toList,
        ![color.m_dRed, color.m_dGreen, color.m_dBlue, 1])
    | none => (cout ++ "N/A; ".toList, ![7 / 10, 7 / 10, 7 / 10, 1])
  | none => (cout, color_result)

/-! ## `he_traverse_tree` (main.cpp:92-155) -/

/-- What `he_traverse_tree` writes to: standard output and `*traverse_data`. -/
structure Traversal where
  cout : List Char
  traverse_data : TraverseData

/-- The indeterminate initial contents of the locals `MeshObject object`
(main.cpp:135), one per call of `he_traverse_tree`: `stack []` is the content
in the call at hand and `stack (c :: p)` the content in the call reached from
it through child `c` and then along `p`. -/
abbrev StackContent := List Nat → MeshObject

/-- The node dump and geometry extraction of `he_traverse_tree`
(main.cpp:100-143), everything before the loop over the children. `object` is
the indeterminate initial content of this call's local `MeshObject object`. -/
def he_traverse_node (sdk : Sdk) (object : MeshObject) (hnd_node : A3DTreeNode)
    (depth : Nat) (s : Traversal) : Traversal :=
  let cout := s.cout ++ List.replicate (2 * depth) ' '
  let cout := cout ++ "Name: ".toList
  let cout :=
    match hnd_node.name with
    | some node_name => cout ++ node_name ++ "; ".toList
    | none => cout ++ "N/A; ".toList
  let cout := cout ++ "Type: ".toList
  let cout :=
    match hnd_node.type_msg with
    | some pTypeMsg => cout ++ pTypeMsg ++ "; ".toList
    | none => cout ++ "N/A; ".toList
  match hnd_node.geometry with
  | some mesh_data =>
    let matrix_position := he_extract_position sdk hnd_node
    let (cout, color) := he_extract_color sdk hnd_node cout object.color
    ⟨cout ++ ['\n'],
      ⟨s.traverse_data.objects ++ [⟨matrix_position, mesh_data, color⟩]⟩⟩
  | none => ⟨cout ++ ['\n'], s.traverse_data⟩

mutual
/-- The function `he_traverse_tree` of main.cpp:97-155. Every call has a local
`MeshObject object` of its own, with the initial content `stack []`. `depth` is
a `size_t` that counts nested calls, so it stays far below `2 ^ 63`. -/
def he_traverse_tree (sdk : Sdk) :
    StackContent → A3DTreeNode → Nat → Traversal → Traversal
  | stack, .mk n t g st tr hnd_children, depth, s =>
    he_traverse_children sdk stack hnd_children 0 (depth + 1)
      (he_traverse_node sdk (stack []) (.mk n t g st tr hnd_children) depth s)
/-- The loop over `hnd_children` of main.cpp:151-153, from the counter value `c`
on; the list holds `hnd_children[c]` and the children after it. -/
def he_traverse_children (sdk : Sdk) :
    StackContent → List A3DTreeNode → Nat → Nat → Traversal → Traversal
  | _, [], _, _, s => s
  | stack, child :: rest, c, depth, s =>
    he_traverse_children sdk stack rest (c + 1) depth
      (he_traverse_tree sdk (fun p => stack (c :: p)) child depth s)
end

/-! ## `send_to_openGL` (interface.cpp:3-36) -/

/-- The arguments `send_to_openGL` passes to `ogl_rendering_loop`
(interface.cpp:29): the array behind `ogl_data_traverse.objects.data()` and the
object count; with them, everything uploaded to the GPU. -/
structure RenderingLoopCall where
  objects : List oglSceneObject
  count : Nat
  gpu : List GpuBuffers

/-- The increment `i++` of the `int` counter. Past `INT_MAX` the C++ standard
leaves the result open; the model takes what the 32-bit two's-complement
target computes, the wrap to `INT_MIN`. -/
def int_increment (i : Int) : Int :=
  if i + 1 ≤ (INT_MAX : Int) then i + 1 else i + 1 - (UNS32_RANGE : Int)

/-- The conversion of the `int` counter to `size_t`, made by the comparison
`i < data_traverse.objects.size()` and by `objects[i]`. -/
def int_to_size_t (i : Int) : Nat := (i % (SIZE_T_RANGE : Int)).toNat

/-- The loop of interface.cpp:16-27 from the counter value `i` on, for at most
`fuel` evaluations of the exit test (`objects.size() + 1` are enough).
`mat_transform_model` is the member of that name which line 23 reads from
`data_traverse.objects[i]`; `MeshObject` (Interface.hpp:21-25) declares no such
member, so what it denotes is left open. -/
def send_to_openGL_loop (ogl_rendering_to_gpu : GpuUploader)
    (mat_transform_model : MeshObject → mat4x4) (objects : List MeshObject) :
    (fuel : Nat) → (i : Int) → List GpuBuffers → List oglSceneObject →
      Option (List oglSceneObject × List GpuBuffers)
  | 0, _, _, _ => none
  | fuel + 1, i, gpu, ogl_objects =>
    if int_to_size_t i < objects.length then
      match objects[int_to_size_t i]? with
      | none => none
      | some o =>
        match ogl_mesh_data_to_rendering ogl_rendering_to_gpu gpu o.mesh with
        | none => none
        | some pair =>
          let object : oglSceneObject :=
            ⟨mat4x4_dup (mat_transform_model o), vec4_dup o.color, pair.first, pair.second⟩
          send_to_openGL_loop ogl_rendering_to_gpu mat_transform_model objects fuel
            (int_increment i) pair.gpu (ogl_objects ++ [object])
    else some (ogl_objects, gpu)

/-- The function `send_to_openGL` of interface.cpp:3-36, up to the call of
`ogl_rendering_loop`. -/
def send_to_openGL (ogl_rendering_to_gpu : GpuUploader)
    (mat_transform_model : MeshObject → mat4x4) (gpu : List GpuBuffers)
    (data_traverse : TraverseData) : Option RenderingLoopCall :=
  match send_to_openGL_loop ogl_rendering_to_gpu mat_transform_model data_traverse.objects
      (data_traverse.objects.length + 1) 0 gpu [] with
  | none => none
  | some (ogl_objects, gpu) => some ⟨ogl_objects, data_traverse.objects.length, gpu⟩

/-! ## Vocabulary of the statements -/

/-- The components of an `A3DVector3dData` as a vector. -/
def to_vec3 (v : A3DVector3dData) : Fin 3 → ℚ := ![v.m_dX, v.m_dY, v.m_dZ]

/-- The column `(v, w)` of a 4x4 matrix. -/
def homogeneous (v : Fin 3 → ℚ) (w : ℚ) : vec4 := ![v 0, v 1, v 2, w]

/-- The mirror bit `kA3DTransformationMirror` is set in the behaviour flags. -/
def mirror_bit_set (sdk : Sdk) (data : A3DMiscCartesianTransformationData) : Prop :=
  data.m_ucBehaviour &&& sdk.kA3DTransformationMirror ≠ 0

instance (sdk : Sdk) (data : A3DMiscCartesianTransformationData) :
    Decidable (mirror_bit_set sdk data) := by
  unfold mirror_bit_set
  infer_instance

/-- The factor `m`: `-1` with the mirror bit, `+1` without. -/
def mirror_sign (sdk : Sdk) (data : A3DMiscCartesianTransformationData) : ℚ :=
  if mirror_bit_set sdk data then -1 else 1

/-- A column-major `mat4x4` as a matrix: entry `(r, c)` is `M[c][r]`. -/
def to_matrix (M : mat4x4) : Matrix (Fin 4) (Fin 4) ℚ :=
  Matrix.of fun r c => M c r

/-- The upper-left 3x3 block of a column-major `mat4x4`. -/
def linear_part (M : mat4x4) : Matrix (Fin 3) (Fin 3) ℚ :=
  Matrix.of fun r c => M c.castSucc r.castSucc

/-- A mesh without coordinates and normals and with a single face of `count`
triangles, behind whose index pointer `allocated` indices (all zero) are
allocated. -/
def single_face_mesh (count allocated : Nat) : A3DMeshData :=
  ⟨0, [], 0, [], 1, [count], List.replicate allocated 0⟩

/-- A mesh with one face of 1431655766 triangles; its index array holds the
3 * 1431655766 = 4294967298 indices of that face. -/
def large_face_mesh : A3DMeshData := single_face_mesh 1431655766 4294967298

/-- A mesh with one face of 715827883 triangles; its index array holds the
3 * 715827883 = 2147483649 indices of that face. -/
def many_indices_mesh : A3DMeshData := single_face_mesh 715827883 2147483649

/-- A mesh of one triangle with one normal. -/
def one_triangle_mesh : A3DMeshData :=
  ⟨9, [0, 0, 0, 1, 0, 0, 0, 1, 0], 3, [0, 0, 1], 1, [1], [0, 3, 6]⟩

/-- The sum the loop of interface.cpp:53-55 accumulates: every product
`3 * count` reduced to 32 bits. -/
def wrapped_index_sum (counts : List Nat) : Nat :=
  (counts.map fun count => (3 * count) % UNS32_RANGE).sum

/-- An SDK whose mirror flag is `0x04`, whose colour table holds one colour at
index 0 and which prints every number as `?`. -/
def example_sdk : Sdk :=
  ⟨4, fun i => if i = 0 then some ⟨1 / 2, 1 / 4, 1 / 8⟩ else none, fun _ => ['?']⟩

/-- A mirrored, non-uniformly scaled placement along the coordinate axes. -/
def mirrored_data : A3DMiscCartesianTransformationData :=
  ⟨⟨1, 2, 3⟩, ⟨1, 0, 0⟩, ⟨0, 1, 0⟩, ⟨2, 3, 4⟩, 4⟩

/-- A leaf without geometry that carries `mirrored_data`. -/
def mirrored_node : A3DTreeNode := .mk none none none none (some mirrored_data) []

/-- A leaf for which every SDK query fails or answers null. -/
def bare_node : A3DTreeNode := .mk none none none none none []

/-- The matrix with columns `x`, `y` and `m * (x cross y)`. -/
def frame (sdk : Sdk) (data : A3DMiscCartesianTransformationData) : Matrix (Fin 3) (Fin 3) ℚ :=
  Matrix.of ![
    ![data.m_sXVector.m_dX, data.m_sYVector.m_dX,
      mirror_sign sdk data * (data.m_sXVector.m_dY * data.m_sYVector.m_dZ
        - data.m_sXVector.m_dZ * data.m_sYVector.m_dY)],
    ![data.m_sXVector.m_dY, data.m_sYVector.m_dY,
      mirror_sign sdk data * (data.m_sXVector.m_dZ * data.m_sYVector.m_dX
        - data.m_sXVector.m_dX * data.m_sYVector.m_dZ)],
    ![data.m_sXVector.m_dZ, data.m_sYVector.m_dZ,
      mirror_sign sdk data * (data.m_sXVector.m_dX * data.m_sYVector.m_dY
        - data.m_sXVector.m_dY * data.m_sYVector.m_dX)]]

/-- The `MeshObject` the visit of a node appends: none when
`A3DTreeNodeGetGeometry` fails. -/
def node_object (sdk : Sdk) (object : MeshObject) (n : A3DTreeNode) : Option MeshObject :=
  match n.geometry with
  | some mesh => some ⟨he_extract_position sdk n, mesh,
      (he_extract_color sdk n [] object.color).2⟩
  | none => none

/-- The text of a node's dump line between the indent and the end of line; what
`he_extract_color` prints does not depend on the content of `color_result`. -/
def node_text (sdk : Sdk) (n : A3DTreeNode) : List Char :=
  "Name: ".toList
    ++ (match n.name with
        | some node_name => node_name ++ "; ".toList
        | none => "N/A; ".toList)
    ++ "Type: ".toList
    ++ (match n.type_msg with
        | some pTypeMsg => pTypeMsg ++ "; ".toList
        | none => "N/A; ".toList)
    ++ (match n.geometry with
        | some _ => (he_extract_color sdk n [] fun _ => 0).1
        | none => [])

/-- The dump line of a node at depth `d`: `2 * d` spaces, the text, end of line. -/
def dump_line (sdk : Sdk) (n : A3DTreeNode) (d : Nat) : List Char :=
  List.replicate (2 * d) ' ' ++ node_text sdk n ++ ['\n']

mutual
/-- The nodes of a tree in depth-first pre-order, each with its depth, the root
being at depth `d`. -/
def preorder : A3DTreeNode → Nat → List (A3DTreeNode × Nat)
  | .mk n t g st tr cs, d => (.mk n t g st tr cs, d) :: preorder_children cs (d + 1)
/-- The pre-order listings of the trees of a list, one after the other. -/
def preorder_children : List A3DTreeNode → Nat → List (A3DTreeNode × Nat)
  | [], _ => []
  | c :: cs, d => preorder c d ++ preorder_children cs d
end

mutual
/-- Number of nodes of a tree. -/
def node_count : A3DTreeNode → Nat
  | .mk _ _ _ _ _ cs => 1 + node_count_children cs
/-- Number of nodes of the trees of a list. -/
def node_count_children : List A3DTreeNode → Nat
  | [] => 0
  | c :: cs => node_count c + node_count_children cs
end

mutual
/-- The calls of `he_traverse_tree` on a tree in depth-first pre-order: the
node, its depth (the root being at depth `d`) and the initial content of the
call's local `MeshObject object`. -/
def visits : StackContent → A3DTreeNode → Nat → List (A3DTreeNode × Nat × MeshObject)
  | stack, .mk n t g st tr cs, d =>
    (.mk n t g st tr cs, d, stack []) :: visits_children stack cs 0 (d + 1)
/-- The calls on the trees of a list, one tree after the other, the first
tree being child number `c`. -/
def visits_children :
    StackContent → List A3DTreeNode → Nat → Nat → List (A3DTreeNode × Nat × MeshObject)
  | _, [], _, _ => []
  | stack, child :: rest, c, d =>
    visits (fun p => stack (c :: p)) child d ++ visits_children stack rest (c + 1) d
end

/-- What a traversal that makes the listed calls leaves behind. -/
def after_visits (sdk : Sdk) (calls : List (A3DTreeNode × Nat × MeshObject))
    (s : Traversal) : Traversal :=
  ⟨s.cout ++ (calls.map fun v => dump_line sdk v.1 v.2.1).flatten,
    ⟨s.traverse_data.objects ++ calls.filterMap fun v => node_object sdk v.2.2 v.1⟩⟩

/-- A leaf with geometry whose net style cannot be fetched. -/
def styleless_node : A3DTreeNode := .mk none none (some one_triangle_mesh) none none []

/-- A root without geometry over two leaves like `styleless_node`. -/
def styleless_pair : A3DTreeNode := .mk none none none none none [styleless_node, styleless_node]

/-- Stack contents whose colour is red in the call on child 0 and all zero in
every other call. -/
def red_then_zero : StackContent
  | [0] => ⟨fun _ _ => 0, one_triangle_mesh, ![1, 0, 0, 1]⟩
  | _ => ⟨fun _ _ => 0, one_triangle_mesh, ![0, 0, 0, 0]⟩

/-- A local `MeshObject` whose indeterminate content happens to be all zero. -/
def zero_object : MeshObject := ⟨fun _ _ => 0, one_triangle_mesh, ![0, 0, 0, 0]⟩

/-- A root with geometry and colour 0, with two children: a leaf without
geometry and a mirrored leaf whose colour index is unknown to the SDK. -/
def sample_tree : A3DTreeNode :=
  .mk (some "root".toList) (some "Part".toList) (some one_triangle_mesh) (some ⟨0⟩) none
    [.mk none none none none none [],
     .mk (some "leaf".toList) none (some one_triangle_mesh) (some ⟨5⟩) (some mirrored_data) []]

/-- The scene objects `send_to_openGL` builds for the listed objects, the GPU
having received the uploads `gpu` before. -/
def scene_objects (ogl_rendering_to_gpu : GpuUploader)
    (mat_transform_model : MeshObject → mat4x4) :
    List GpuBuffers → List MeshObject → List oglSceneObject
  | _, [] => []
  | gpu, o :: os =>
    match ogl_mesh_data_to_rendering ogl_rendering_to_gpu gpu o.mesh with
    | none => []
    | some pair =>
      ⟨mat_transform_model o, o.color, pair.first, pair.second⟩ ::
        scene_objects ogl_rendering_to_gpu mat_transform_model pair.gpu os

/-- The buffers uploaded for the listed objects. -/
def uploads (objects : List MeshObject) : List GpuBuffers :=
  objects.filterMap fun o => mesh_buffers o.mesh

/-- The value of the `int` counter after `k ≤ INT_MAX + 1` increments from 0. -/
def counter_value (k : Nat) : Int :=
  if k ≤ INT_MAX then (k : Int) else (k : Int) - (UNS32_RANGE : Int)

/-- Two objects. -/
def two_objects : TraverseData :=
  ⟨[zero_object, ⟨mat4x4_identity, one_triangle_mesh, ![1, 0, 0, 1]⟩]⟩

/-! # Theorems -/

/-! ## Index counting -/


theorem to_GLsizei_of_le {n : Nat} (h : n ≤ INT_MAX) : to_GLsizei n = (n : Int) := by
  have hn : n % UNS32_RANGE = n := Nat.mod_eq_of_lt (by
    simp only [INT_MAX, UNS32_RANGE] at *; omega)
  simp [to_GLsizei, hn, h]

/-- Past `INT_MAX` the conversion to `GLsizei` never preserves the value. -/
theorem to_GLsizei_ne_of_gt {n : Nat} (h : INT_MAX < n) : to_GLsizei n ≠ (n : Int) := by
  have h1 : INT_MAX = 2147483647 := by decide
  have h2 : UNS32_RANGE = 4294967296 := by decide
  simp only [to_GLsizei, h1, h2] at *
  split_ifs <;> omega

theorem wrapped_index_sum_le (counts : List Nat) :
    wrapped_index_sum counts ≤ counts.length * (UNS32_RANGE - 1) := by
  induction counts with
  | nil => simp [wrapped_index_sum]
  | cons c cs ih =>
    have hc : (3 * c) % UNS32_RANGE < UNS32_RANGE := Nat.mod_lt _ (by decide)
    have hs : wrapped_index_sum (c :: cs) = (3 * c) % UNS32_RANGE + wrapped_index_sum cs := by
      simp [wrapped_index_sum]
    rw [hs, List.length_cons, Nat.add_mul, Nat.one_mul]
    clear hs
    generalize (3 * c) % UNS32_RANGE = r at hc ⊢
    generalize cs.length * (UNS32_RANGE - 1) = b at ih ⊢
    generalize UNS32_RANGE = u at hc ⊢
    omega

theorem wrapped_index_sum_lt (counts : List Nat) (h : counts.length < UNS32_RANGE) :
    wrapped_index_sum counts < SIZE_T_RANGE := by
  have h1 := wrapped_index_sum_le counts
  have h2 : counts.length * (UNS32_RANGE - 1) ≤ (UNS32_RANGE - 1) * (UNS32_RANGE - 1) :=
    Nat.mul_le_mul_right _ (by omega)
  have h3 : (UNS32_RANGE - 1) * (UNS32_RANGE - 1) < SIZE_T_RANGE := by decide
  omega

theorem wrapped_index_sum_of_small (counts : List Nat)
    (h : ∀ c ∈ counts, 3 * c < UNS32_RANGE) :
    wrapped_index_sum counts = 3 * counts.sum := by
  induction counts with
  | nil => simp [wrapped_index_sum]
  | cons c cs ih =>
    have hc : (3 * c) % UNS32_RANGE = 3 * c :=
      Nat.mod_eq_of_lt (h c (List.mem_cons_self _ _))
    have ih2 := ih fun d hd => h d (List.mem_cons_of_mem _ hd)
    simp only [wrapped_index_sum, List.map_cons, List.sum_cons] at ih2 ⊢
    rw [hc, ih2]
    ring

theorem n_indices_loop_eq (counts : List Nat) :
    ∀ (remaining face_i acc : Nat), face_i + remaining ≤ counts.length →
      acc < SIZE_T_RANGE →
      n_indices_loop counts remaining face_i acc =
        some ((acc + wrapped_index_sum ((counts.drop face_i).take remaining))
          % SIZE_T_RANGE) := by
  intro remaining
  induction remaining with
  | zero =>
    intro face_i acc _ hacc
    simp [n_indices_loop, wrapped_index_sum, Nat.mod_eq_of_lt hacc]
  | succ k ih =>
    intro face_i acc h _
    have hlt : face_i < counts.length := by omega
    have hget : counts[face_i]? = some counts[face_i] := List.getElem?_eq_getElem hlt
    have hdrop : counts.drop face_i = counts[face_i] :: counts.drop (face_i + 1) :=
      List.drop_eq_getElem_cons hlt
    have hs : ∀ (c : Nat) (cs : List Nat),
        wrapped_index_sum (c :: cs) = (3 * c) % UNS32_RANGE + wrapped_index_sum cs := by
      intro c cs
      simp [wrapped_index_sum]
    rw [n_indices_loop, hget]
    simp only []
    rw [ih (face_i + 1) _ (by omega) (Nat.mod_lt _ (by decide)), hdrop,
      List.take_succ_cons, hs]
    congr 1
    rw [Nat.add_mod, Nat.mod_mod, ← Nat.add_mod, Nat.add_assoc]

/-- Under the SDK's array contract the loop leaves in `n_indices` the sum of the
32-bit products; the `size_t` accumulator itself never wraps. -/
theorem n_indices_eq_wrapped (mesh_data : A3DMeshData) (h : mesh_data.SdkCounts) :
    n_indices mesh_data = some (wrapped_index_sum mesh_data.m_puiTriangleCountPerFace) := by
  obtain ⟨_, _, _, _, hf, hlen, _, _⟩ := h
  have hlt := wrapped_index_sum_lt mesh_data.m_puiTriangleCountPerFace (by omega)
  rw [n_indices, n_indices_loop_eq _ _ _ _ (by omega) (by decide), ← hlen]
  simp [Nat.mod_eq_of_lt hlt]

/-- As long as no product `3 * count` leaves the 32-bit range, `n_indices` is
3 times the sum of the per-face triangle counts. -/
theorem n_indices_eq_three_times_sum (mesh_data : A3DMeshData) (h : mesh_data.SdkCounts)
    (hsmall : ∀ c ∈ mesh_data.m_puiTriangleCountPerFace, 3 * c < UNS32_RANGE) :
    n_indices mesh_data = some (3 * mesh_data.m_puiTriangleCountPerFace.sum) := by
  rw [n_indices_eq_wrapped _ h, wrapped_index_sum_of_small _ hsmall]

theorem mesh_buffers_of_sdk_counts (mesh_data : A3DMeshData) (h : mesh_data.SdkCounts)
    (hidx : wrapped_index_sum mesh_data.m_puiTriangleCountPerFace
      ≤ mesh_data.m_puiVertexIndicesPerFace.length) :
    mesh_buffers mesh_data =
      some ⟨mesh_data.m_puiVertexIndicesPerFace.take
          (wrapped_index_sum mesh_data.m_puiTriangleCountPerFace),
        mesh_data.m_pdCoords, mesh_data.m_pdNormals⟩ := by
  have hn := n_indices_eq_wrapped mesh_data h
  obtain ⟨_, hc, _, hnrm, _, _, _, _⟩ := h
  simp [mesh_buffers, vector_from_range, hn, hidx, ← hc, ← hnrm]


/-- C5: for a mesh that keeps the SDK's array contract and whose index array
holds at least `n_indices` entries, `ogl_mesh_data_to_rendering` returns, and
the buffers it passes to `ogl_rendering_to_gpu` are the coordinate array
(length `m_uiCoordSize`), the normal array (length `m_uiNormalSize`) and the
first `n_indices` entries of `m_puiVertexIndicesPerFace`, in order. -/
theorem ogl_mesh_data_to_rendering_buffers (ogl_rendering_to_gpu : GpuUploader)
    (gpu : List GpuBuffers) (mesh_data : A3DMeshData) (h : mesh_data.SdkCounts)
    (hidx : ∀ n, n_indices mesh_data = some n →
      n ≤ mesh_data.m_puiVertexIndicesPerFace.length) :
    ∃ r n, ogl_mesh_data_to_rendering ogl_rendering_to_gpu gpu mesh_data = some r ∧
      n_indices mesh_data = some n ∧
      r.first = ogl_rendering_to_gpu gpu r.uploaded ∧
      r.uploaded.vertex_buffer = mesh_data.m_pdCoords ∧
      r.uploaded.vertex_buffer.length = mesh_data.m_uiCoordSize ∧
      r.uploaded.normal_buffer = mesh_data.m_pdNormals ∧
      r.uploaded.normal_buffer.length = mesh_data.m_uiNormalSize ∧
      r.uploaded.index_buffer = mesh_data.m_puiVertexIndicesPerFace.take n ∧
      r.uploaded.index_buffer.length = n := by
  have hn := n_indices_eq_wrapped mesh_data h
  have hle := hidx _ hn
  have hb := mesh_buffers_of_sdk_counts mesh_data h hle
  obtain ⟨_, hc, _, hnrm, _, _, _, _⟩ := h
  refine ⟨_, _, by rw [ogl_mesh_data_to_rendering, hb], hn, rfl, rfl, hc, rfl, hnrm, rfl, ?_⟩
  simp [List.length_take, hle]

theorem ogl_mesh_data_to_rendering_buffers_witness :
    one_triangle_mesh.SdkCounts ∧
    ∃ r n, ogl_mesh_data_to_rendering (fun _ _ => 1) [] one_triangle_mesh = some r ∧
      n_indices one_triangle_mesh = some n ∧
      r.first = (fun _ _ => 1 : GpuUploader) [] r.uploaded ∧
      r.uploaded.vertex_buffer = one_triangle_mesh.m_pdCoords ∧
      r.uploaded.vertex_buffer.length = one_triangle_mesh.m_uiCoordSize ∧
      r.uploaded.normal_buffer = one_triangle_mesh.m_pdNormals ∧
      r.uploaded.normal_buffer.length = one_triangle_mesh.m_uiNormalSize ∧
      r.uploaded.index_buffer = one_triangle_mesh.m_puiVertexIndicesPerFace.take n ∧
      r.uploaded.index_buffer.length = n :=
  ⟨by decide,
    ogl_mesh_data_to_rendering_buffers (fun _ _ => 1) [] one_triangle_mesh (by decide)
      (fun n hn => by
        have h3 : n_indices one_triangle_mesh = some 3 := by decide
        rw [h3] at hn
        cases hn
        decide)⟩

theorem single_face_mesh_rendering (count allocated : Nat) (hc : count < UNS32_RANGE)
    (hn : (3 * count) % UNS32_RANGE ≤ allocated)
    (ogl_rendering_to_gpu : GpuUploader) (gpu : List GpuBuffers) :
    (single_face_mesh count allocated).SdkCounts ∧
    n_indices (single_face_mesh count allocated) = some ((3 * count) % UNS32_RANGE) ∧
    ∃ r, ogl_mesh_data_to_rendering ogl_rendering_to_gpu gpu
        (single_face_mesh count allocated) = some r ∧
      r.uploaded.index_buffer.length = (3 * count) % UNS32_RANGE ∧
      r.second = to_GLsizei ((3 * count) % UNS32_RANGE) := by
  have hu : 0 < UNS32_RANGE := by decide
  have hsdk : (single_face_mesh count allocated).SdkCounts := by
    have h1 : 1 < UNS32_RANGE := by decide
    refine ⟨hu, rfl, hu, rfl, h1, rfl, ?_, ?_⟩
    · intro c hmem
      have : c = count := by simpa [single_face_mesh] using hmem
      omega
    · intro v hmem
      have : v = 0 := (List.mem_replicate.mp hmem).2
      omega
  have hw : wrapped_index_sum (single_face_mesh count allocated).m_puiTriangleCountPerFace
      = (3 * count) % UNS32_RANGE := by
    simp [wrapped_index_sum, single_face_mesh]
  have hlen : (single_face_mesh count allocated).m_puiVertexIndicesPerFace.length
      = allocated := List.length_replicate _ _
  have hb := mesh_buffers_of_sdk_counts _ hsdk (by rw [hw, hlen]; exact hn)
  have hl : ((single_face_mesh count allocated).m_puiVertexIndicesPerFace.take
      (wrapped_index_sum (single_face_mesh count allocated).m_puiTriangleCountPerFace)).length
      = (3 * count) % UNS32_RANGE := by
    rw [List.length_take, hlen, hw]
    exact Nat.min_eq_left hn
  refine ⟨hsdk, by rw [n_indices_eq_wrapped _ hsdk, hw], _,
    by rw [ogl_mesh_data_to_rendering, hb], hl, ?_⟩
  show to_GLsizei _ = _
  rw [hl]

/-- C4 (code evaluated at the failing input): for the well-formed mesh with a
single face of 1431655766 triangles the loop leaves `n_indices = 2` and the
index buffer built has 2 entries, while 3 times the sum of the per-face
triangle counts is 4294967298. -/
theorem n_indices_wraps_for_large_face :
    large_face_mesh.SdkCounts ∧
    n_indices large_face_mesh = some 2 ∧
    3 * large_face_mesh.m_puiTriangleCountPerFace.sum = 4294967298 ∧
    ∃ r, ogl_mesh_data_to_rendering (fun _ _ => 1) [] large_face_mesh = some r ∧
      r.uploaded.index_buffer.length = 2 := by
  have h2 : (3 * 1431655766) % UNS32_RANGE = 2 := by decide
  obtain ⟨hsdk, hn, r, hr, hlen, _⟩ :=
    single_face_mesh_rendering 1431655766 4294967298 (by decide) (by rw [h2]; decide)
      (fun _ _ => 1) []
  rw [h2] at hn hlen
  exact ⟨hsdk, hn, by decide, r, hr, hlen⟩

/-- C6 (counterexample): for the well-formed mesh with a single face of 715827883
triangles the index buffer uploaded has 2147483649 entries, and the count
returned after the conversion to `GLsizei` is -2147483647. -/
theorem gl_indices_count_differs_for_many_indices :
    many_indices_mesh.SdkCounts ∧
    ∃ r, ogl_mesh_data_to_rendering (fun _ _ => 1) [] many_indices_mesh = some r ∧
      r.uploaded.index_buffer.length = 2147483649 ∧
      r.second = -2147483647 ∧
      r.second ≠ (r.uploaded.index_buffer.length : Int) := by
  have h2 : (3 * 715827883) % UNS32_RANGE = 2147483649 := by decide
  have hconv : to_GLsizei 2147483649 = -2147483647 := by decide
  obtain ⟨hsdk, _, r, hr, hlen, hsec⟩ :=
    single_face_mesh_rendering 715827883 2147483649 (by decide) (by rw [h2])
      (fun _ _ => 1) []
  rw [h2] at hlen hsec
  rw [hconv] at hsec
  refine ⟨hsdk, r, hr, hlen, hsec, ?_⟩
  rw [hsec, hlen]
  decide

/-- C6 (amended): for a mesh that keeps the SDK's array contract, whose index
array holds at least `n_indices` entries and for which `n_indices` is at most
`INT_MAX = 2 ^ 31 - 1`, `ogl_mesh_data_to_rendering` returns, and the second
component of the returned pair equals the size of the index buffer uploaded. -/
theorem gl_indices_count_eq_index_buffer_size (ogl_rendering_to_gpu : GpuUploader)
    (gpu : List GpuBuffers) (mesh_data : A3DMeshData) (h : mesh_data.SdkCounts)
    (hidx : ∀ n, n_indices mesh_data = some n →
      n ≤ mesh_data.m_puiVertexIndicesPerFace.length)
    (hmax : ∀ n, n_indices mesh_data = some n → n ≤ INT_MAX) :
    ∃ r, ogl_mesh_data_to_rendering ogl_rendering_to_gpu gpu mesh_data = some r ∧
      r.second = (r.uploaded.index_buffer.length : Int) := by
  have hn := n_indices_eq_wrapped mesh_data h
  have hle := hidx _ hn
  have hb := mesh_buffers_of_sdk_counts mesh_data h hle
  refine ⟨_, by rw [ogl_mesh_data_to_rendering, hb], ?_⟩
  apply to_GLsizei_of_le
  simp only [List.length_take, Nat.min_eq_left hle]
  exact hmax _ hn

theorem gl_indices_count_eq_index_buffer_size_witness :
    one_triangle_mesh.SdkCounts ∧
    ∃ r, ogl_mesh_data_to_rendering (fun _ _ => 7) [] one_triangle_mesh = some r ∧
      r.second = (r.uploaded.index_buffer.length : Int) :=
  ⟨by decide,
    gl_indices_count_eq_index_buffer_size (fun _ _ => 7) [] one_triangle_mesh (by decide)
      (fun n hn => by
        have h3 : n_indices one_triangle_mesh = some 3 := by decide
        rw [h3] at hn
        cases hn
        decide)
      (fun n hn => by
        have h3 : n_indices one_triangle_mesh = some 3 := by decide
        rw [h3] at hn
        cases hn
        decide)⟩

/-! ## `he_extract_position` -/

/-- C2: for a node with a net Cartesian transformation, `he_extract_position`
produces the column-major matrix with columns `(sx * x, 0)`, `(sy * y, 0)`,
`(m * sz * (x cross y), 0)` and `(o, 1)`, where `m` is `-1` with the mirror bit
and `+1` without. -/
theorem he_extract_position_cartesian (sdk : Sdk) (hnd_node : A3DTreeNode)
    (data : A3DMiscCartesianTransformationData)
    (h : hnd_node.net_transformation = some data) :
    he_extract_position sdk hnd_node =
      ![homogeneous (data.m_sScale.m_dX • to_vec3 data.m_sXVector) 0,
        homogeneous (data.m_sScale.m_dY • to_vec3 data.m_sYVector) 0,
        homogeneous ((mirror_sign sdk data * data.m_sScale.m_dZ) •
          (crossProduct (to_vec3 data.m_sXVector)) (to_vec3 data.m_sYVector)) 0,
        homogeneous (to_vec3 data.m_sOrigin) 1] ∧
    (mirror_bit_set sdk data → mirror_sign sdk data = -1) ∧
    (¬ mirror_bit_set sdk data → mirror_sign sdk data = 1) := by
  refine ⟨?_, fun hm => if_pos hm, fun hm => if_neg hm⟩
  rw [he_extract_position, h]
  funext c r
  have hm : (if data.m_ucBehaviour &&& sdk.kA3DTransformationMirror ≠ 0 then (-1 : ℚ) else 1)
      = mirror_sign sdk data := rfl
  fin_cases c <;> fin_cases r <;>
    simp only [cartesian_matrix, hm] <;>
    simp [homogeneous, to_vec3, vec3_mul_cross, cross_apply] <;> ring_nf

theorem he_extract_position_cartesian_witness :
    he_extract_position example_sdk mirrored_node =
      ![homogeneous (mirrored_data.m_sScale.m_dX • to_vec3 mirrored_data.m_sXVector) 0,
        homogeneous (mirrored_data.m_sScale.m_dY • to_vec3 mirrored_data.m_sYVector) 0,
        homogeneous ((mirror_sign example_sdk mirrored_data * mirrored_data.m_sScale.m_dZ) •
          (crossProduct (to_vec3 mirrored_data.m_sXVector))
            (to_vec3 mirrored_data.m_sYVector)) 0,
        homogeneous (to_vec3 mirrored_data.m_sOrigin) 1] ∧
    (mirror_bit_set example_sdk mirrored_data → mirror_sign example_sdk mirrored_data = -1) ∧
    (¬ mirror_bit_set example_sdk mirrored_data →
      mirror_sign example_sdk mirrored_data = 1) :=
  he_extract_position_cartesian example_sdk mirrored_node mirrored_data rfl

/-- C7: for a node without net transformation (null handle),
`he_extract_position` produces the 4x4 identity matrix, which is also what the
general construction yields for X = (1,0,0), Y = (0,1,0), scale (1,1,1),
origin (0,0,0) and behaviour flags without the mirror bit. -/
theorem he_extract_position_null (sdk : Sdk) (hnd_node : A3DTreeNode)
    (h : hnd_node.net_transformation = none) :
    to_matrix (he_extract_position sdk hnd_node) = 1 ∧
    ∀ b : Nat, b &&& sdk.kA3DTransformationMirror = 0 →
      he_extract_position sdk hnd_node =
        cartesian_matrix sdk ⟨⟨0, 0, 0⟩, ⟨1, 0, 0⟩, ⟨0, 1, 0⟩, ⟨1, 1, 1⟩, b⟩ := by
  rw [he_extract_position, h]
  refine ⟨?_, ?_⟩
  · ext i j
    simp [to_matrix, mat4x4_identity, Matrix.one_apply, eq_comm]
  · intro b hb
    funext c r
    have hm : (if b &&& sdk.kA3DTransformationMirror ≠ 0 then (-1 : ℚ) else 1) = 1 := by
      simp [hb]
    fin_cases c <;> fin_cases r <;>
      simp only [cartesian_matrix, hm, mat4x4_identity, vec3_mul_cross] <;>
      norm_num <;> decide

theorem he_extract_position_null_witness :
    to_matrix (he_extract_position example_sdk bare_node) = 1 ∧
    ∀ b : Nat, b &&& example_sdk.kA3DTransformationMirror = 0 →
      he_extract_position example_sdk bare_node =
        cartesian_matrix example_sdk ⟨⟨0, 0, 0⟩, ⟨1, 0, 0⟩, ⟨0, 1, 0⟩, ⟨1, 1, 1⟩, b⟩ :=
  he_extract_position_null example_sdk bare_node rfl

theorem to_matrix_det (M : mat4x4) (h0 : M 0 3 = 0) (h1 : M 1 3 = 0) (h2 : M 2 3 = 0)
    (h3 : M 3 3 = 1) : (to_matrix M).det = (linear_part M).det := by
  have hsub : (to_matrix M).submatrix (Fin.last 3).succAbove (Fin.succAbove (3 : Fin 4))
      = linear_part M := by
    ext i j
    have e : (3 : Fin 4) = Fin.last 3 := rfl
    simp [to_matrix, linear_part, e, Fin.succAbove_last]
  have e0 : to_matrix M (Fin.last 3) 0 = 0 := h0
  have e1 : to_matrix M (Fin.last 3) 1 = 0 := h1
  have e2 : to_matrix M (Fin.last 3) 2 = 0 := h2
  have e3 : to_matrix M (Fin.last 3) 3 = 1 := h3
  rw [Matrix.det_succ_row _ (Fin.last 3), Fin.sum_univ_four, e0, e1, e2, e3, hsub]
  have e4 : ((3 : Fin 4) : ℕ) = 3 := rfl
  simp only [Fin.val_last, e4]
  norm_num

theorem linear_part_cartesian_matrix (sdk : Sdk) (data : A3DMiscCartesianTransformationData) :
    linear_part (cartesian_matrix sdk data) =
      Matrix.of ![
        ![data.m_sXVector.m_dX * data.m_sScale.m_dX, data.m_sYVector.m_dX * data.m_sScale.m_dY,
          mirror_sign sdk data * (data.m_sXVector.m_dY * data.m_sYVector.m_dZ
            - data.m_sXVector.m_dZ * data.m_sYVector.m_dY) * data.m_sScale.m_dZ],
        ![data.m_sXVector.m_dY * data.m_sScale.m_dX, data.m_sYVector.m_dY * data.m_sScale.m_dY,
          mirror_sign sdk data * (data.m_sXVector.m_dZ * data.m_sYVector.m_dX
            - data.m_sXVector.m_dX * data.m_sYVector.m_dZ) * data.m_sScale.m_dZ],
        ![data.m_sXVector.m_dZ * data.m_sScale.m_dX, data.m_sYVector.m_dZ * data.m_sScale.m_dY,
          mirror_sign sdk data * (data.m_sXVector.m_dX * data.m_sYVector.m_dY
            - data.m_sXVector.m_dY * data.m_sYVector.m_dX) * data.m_sScale.m_dZ]] := by
  ext i j
  fin_cases i <;> fin_cases j <;> rfl

theorem linear_part_cartesian_matrix_det (sdk : Sdk)
    (data : A3DMiscCartesianTransformationData) :
    (linear_part (cartesian_matrix sdk data)).det =
      mirror_sign sdk data * data.m_sScale.m_dX * data.m_sScale.m_dY * data.m_sScale.m_dZ *
        Matrix.dotProduct
          ((crossProduct (to_vec3 data.m_sXVector)) (to_vec3 data.m_sYVector))
          ((crossProduct (to_vec3 data.m_sXVector)) (to_vec3 data.m_sYVector)) := by
  rw [linear_part_cartesian_matrix, Matrix.det_fin_three]
  simp [to_vec3, cross_apply, Matrix.vec3_dotProduct]
  ring

theorem mirror_sign_sq (sdk : Sdk) (data : A3DMiscCartesianTransformationData) :
    mirror_sign sdk data * mirror_sign sdk data = 1 := by
  unfold mirror_sign
  split_ifs <;> norm_num

theorem frame_orthogonal (sdk : Sdk) (data : A3DMiscCartesianTransformationData)
    (hx : Matrix.dotProduct (to_vec3 data.m_sXVector) (to_vec3 data.m_sXVector) = 1)
    (hy : Matrix.dotProduct (to_vec3 data.m_sYVector) (to_vec3 data.m_sYVector) = 1)
    (hxy : Matrix.dotProduct (to_vec3 data.m_sXVector) (to_vec3 data.m_sYVector) = 0) :
    (frame sdk data).transpose * frame sdk data = 1 ∧
    (frame sdk data).det = mirror_sign sdk data ∧
    linear_part (cartesian_matrix sdk data) =
      frame sdk data * Matrix.diagonal
        ![data.m_sScale.m_dX, data.m_sScale.m_dY, data.m_sScale.m_dZ] := by
  have hm := mirror_sign_sq sdk data
  simp only [Matrix.vec3_dotProduct, to_vec3, Matrix.cons_val_zero, Matrix.cons_val_one,
    Matrix.head_cons, Matrix.cons_val_two, Matrix.tail_cons] at hx hy hxy
  refine ⟨?_, ?_, ?_⟩
  · ext i j
    simp only [Matrix.mul_apply, Matrix.transpose_apply, Fin.sum_univ_three, Matrix.one_apply]
    fin_cases i <;> fin_cases j <;> simp [frame] <;>
      first
        | ring1
        | linear_combination hx
        | linear_combination hy
        | linear_combination hxy
        | linear_combination
            (mirror_sign sdk data * mirror_sign sdk data) *
              ((data.m_sYVector.m_dX ^ 2 + data.m_sYVector.m_dY ^ 2 + data.m_sYVector.m_dZ ^ 2)
                  * hx + hy
                - (data.m_sXVector.m_dX * data.m_sYVector.m_dX
                    + data.m_sXVector.m_dY * data.m_sYVector.m_dY
                    + data.m_sXVector.m_dZ * data.m_sYVector.m_dZ) * hxy) + hm
  · rw [Matrix.det_fin_three]
    simp only [frame, Matrix.of_apply, Matrix.cons_val_zero, Matrix.cons_val_one,
      Matrix.head_cons, Matrix.cons_val_two, Matrix.tail_cons]
    linear_combination
      mirror_sign sdk data *
        ((data.m_sYVector.m_dX ^ 2 + data.m_sYVector.m_dY ^ 2 + data.m_sYVector.m_dZ ^ 2)
            * hx + hy
          - (data.m_sXVector.m_dX * data.m_sYVector.m_dX
              + data.m_sXVector.m_dY * data.m_sYVector.m_dY
              + data.m_sXVector.m_dZ * data.m_sYVector.m_dZ) * hxy)
  · rw [linear_part_cartesian_matrix]
    ext i j
    rw [Matrix.mul_diagonal]
    fin_cases i <;> fin_cases j <;> simp [frame]

theorem cross_ne_zero_of_linearIndependent (x y : Fin 3 → ℚ)
    (h : LinearIndependent ℚ ![x, y]) : (crossProduct x) y ≠ 0 := by
  intro hc
  rw [LinearIndependent.pair_iff] at h
  have c0 := congrFun hc 0
  have c1 := congrFun hc 1
  have c2 := congrFun hc 2
  simp [cross_apply] at c0 c1 c2
  have key : ∀ i : Fin 3, y i = 0 := by
    intro i
    have := (h (y i) (-(x i)) (by
      funext j
      fin_cases i <;> fin_cases j <;> simp <;> linarith)).1
    exact this
  have hy : y = 0 := funext key
  have := (h 0 1 (by simp [hy])).2
  exact one_ne_zero this

theorem dotProduct_self_pos (v : Fin 3 → ℚ) (h : v ≠ 0) : 0 < Matrix.dotProduct v v := by
  rw [Matrix.vec3_dotProduct]
  have hne : ¬ (v 0 = 0 ∧ v 1 = 0 ∧ v 2 = 0) := by
    rintro ⟨a, b, c⟩
    apply h
    funext i
    fin_cases i <;> assumption
  by_contra hle
  push_neg at hle
  have h0 := mul_self_nonneg (v 0)
  have h1 := mul_self_nonneg (v 1)
  have h2 := mul_self_nonneg (v 2)
  apply hne
  refine ⟨?_, ?_, ?_⟩ <;> exact mul_self_eq_zero.mp (by linarith)

/-- C10: for a node with a net Cartesian transformation, the upper-left 3x3 block
of the matrix built by `he_extract_position` has determinant
`m * sx * sy * sz * |x cross y|^2`; for linearly independent `x`, `y` and
positive scale factors the 4x4 matrix is invertible and the block has negative
determinant exactly when the mirror bit is set; for orthonormal `x`, `y` the
block is an orthogonal matrix of determinant `m` times `diag(sx, sy, sz)`. -/
theorem he_extract_position_linear_part (sdk : Sdk) (hnd_node : A3DTreeNode)
    (data : A3DMiscCartesianTransformationData)
    (h : hnd_node.net_transformation = some data) :
    (linear_part (he_extract_position sdk hnd_node)).det =
      mirror_sign sdk data * data.m_sScale.m_dX * data.m_sScale.m_dY * data.m_sScale.m_dZ *
        Matrix.dotProduct
          ((crossProduct (to_vec3 data.m_sXVector)) (to_vec3 data.m_sYVector))
          ((crossProduct (to_vec3 data.m_sXVector)) (to_vec3 data.m_sYVector)) ∧
    (LinearIndependent ℚ ![to_vec3 data.m_sXVector, to_vec3 data.m_sYVector] →
      0 < data.m_sScale.m_dX → 0 < data.m_sScale.m_dY → 0 < data.m_sScale.m_dZ →
      IsUnit (to_matrix (he_extract_position sdk hnd_node)) ∧
      ((linear_part (he_extract_position sdk hnd_node)).det < 0 ↔ mirror_bit_set sdk data)) ∧
    (Matrix.dotProduct (to_vec3 data.m_sXVector) (to_vec3 data.m_sXVector) = 1 →
      Matrix.dotProduct (to_vec3 data.m_sYVector) (to_vec3 data.m_sYVector) = 1 →
      Matrix.dotProduct (to_vec3 data.m_sXVector) (to_vec3 data.m_sYVector) = 0 →
      ∃ Q : Matrix (Fin 3) (Fin 3) ℚ, Q.transpose * Q = 1 ∧ Q.det = mirror_sign sdk data ∧
        linear_part (he_extract_position sdk hnd_node) =
          Q * Matrix.diagonal ![data.m_sScale.m_dX, data.m_sScale.m_dY, data.m_sScale.m_dZ]) := by
  have hpos : he_extract_position sdk hnd_node = cartesian_matrix sdk data := by
    rw [he_extract_position, h]
  rw [hpos]
  have hdet := linear_part_cartesian_matrix_det sdk data
  refine ⟨hdet, ?_, fun hx hy hxy => ⟨frame sdk data, frame_orthogonal sdk data hx hy hxy⟩⟩
  intro hli hsx hsy hsz
  have hN := dotProduct_self_pos _ (cross_ne_zero_of_linearIndependent _ _ hli)
  have hP : 0 < data.m_sScale.m_dX * data.m_sScale.m_dY * data.m_sScale.m_dZ :=
    mul_pos (mul_pos hsx hsy) hsz
  have hPN := mul_pos hP hN
  rw [hdet]
  generalize Matrix.dotProduct
    ((crossProduct (to_vec3 data.m_sXVector)) (to_vec3 data.m_sYVector))
    ((crossProduct (to_vec3 data.m_sXVector)) (to_vec3 data.m_sYVector)) = N at hdet hPN
  have hsign : (mirror_sign sdk data * data.m_sScale.m_dX * data.m_sScale.m_dY
      * data.m_sScale.m_dZ * N < 0 ↔ mirror_bit_set sdk data) := by
    unfold mirror_sign
    by_cases hm : mirror_bit_set sdk data
    · simp only [hm, if_true, iff_true]
      linarith
    · simp only [hm, if_false, iff_false]
      linarith
  refine ⟨?_, hsign⟩
  rw [Matrix.isUnit_iff_isUnit_det, to_matrix_det _ rfl rfl rfl rfl, hdet, isUnit_iff_ne_zero]
  unfold mirror_sign
  split_ifs <;> intro h0 <;> linarith

theorem he_extract_position_linear_part_witness :
    (linear_part (he_extract_position example_sdk mirrored_node)).det =
      mirror_sign example_sdk mirrored_data * mirrored_data.m_sScale.m_dX
        * mirrored_data.m_sScale.m_dY * mirrored_data.m_sScale.m_dZ *
        Matrix.dotProduct
          ((crossProduct (to_vec3 mirrored_data.m_sXVector)) (to_vec3 mirrored_data.m_sYVector))
          ((crossProduct (to_vec3 mirrored_data.m_sXVector))
            (to_vec3 mirrored_data.m_sYVector)) ∧
    (IsUnit (to_matrix (he_extract_position example_sdk mirrored_node)) ∧
      ((linear_part (he_extract_position example_sdk mirrored_node)).det < 0 ↔
        mirror_bit_set example_sdk mirrored_data)) ∧
    ∃ Q : Matrix (Fin 3) (Fin 3) ℚ, Q.transpose * Q = 1 ∧
      Q.det = mirror_sign example_sdk mirrored_data ∧
      linear_part (he_extract_position example_sdk mirrored_node) =
        Q * Matrix.diagonal ![mirrored_data.m_sScale.m_dX, mirrored_data.m_sScale.m_dY,
          mirrored_data.m_sScale.m_dZ] :=
  have T := he_extract_position_linear_part example_sdk mirrored_node mirrored_data rfl
  ⟨T.1,
    T.2.1
      (LinearIndependent.pair_iff.mpr fun s t hst => by
        have h0 := congrFun hst 0
        have h1 := congrFun hst 1
        simp [to_vec3, mirrored_data] at h0 h1
        exact ⟨h0, h1⟩)
      (by norm_num [mirrored_data]) (by norm_num [mirrored_data]) (by norm_num [mirrored_data]),
    T.2.2 (by norm_num [to_vec3, mirrored_data, Matrix.vec3_dotProduct])
      (by norm_num [to_vec3, mirrored_data, Matrix.vec3_dotProduct])
      (by norm_num [to_vec3, mirrored_data, Matrix.vec3_dotProduct])⟩

/-! ## `he_extract_color` and `he_traverse_tree` -/

theorem he_extract_color_cout (sdk : Sdk) (n : A3DTreeNode) (cout : List Char) (c c0 : vec4) :
    he_extract_color sdk n cout c =
      (cout ++ (he_extract_color sdk n [] c0).1, (he_extract_color sdk n [] c).2) := by
  unfold he_extract_color
  cases n.net_style with
  | none => simp
  | some st =>
    simp only []
    cases sdk.A3DGlobalGetGraphRgbColorData st.m_uiRgbColorIndex <;> simp

theorem he_traverse_node_eq (sdk : Sdk) (object : MeshObject) (n : A3DTreeNode) (d : Nat)
    (s : Traversal) :
    he_traverse_node sdk object n d s = after_visits sdk [(n, d, object)] s := by
  obtain ⟨nm, t, g, st, tr, cs⟩ := n
  cases g with
  | none =>
    cases nm <;> cases t <;>
      simp [he_traverse_node, after_visits, dump_line, node_text, node_object,
        A3DTreeNode.name, A3DTreeNode.type_msg, A3DTreeNode.geometry]
  | some mesh =>
    cases nm <;> cases t <;>
      simp only [he_traverse_node, A3DTreeNode.name, A3DTreeNode.type_msg,
        A3DTreeNode.geometry] <;>
      rw [he_extract_color_cout _ _ _ _ fun _ => 0] <;>
      simp [after_visits, dump_line, node_text, node_object, A3DTreeNode.name,
        A3DTreeNode.type_msg, A3DTreeNode.geometry]

theorem after_visits_append (sdk : Sdk) (v w : List (A3DTreeNode × Nat × MeshObject))
    (s : Traversal) :
    after_visits sdk w (after_visits sdk v s) = after_visits sdk (v ++ w) s := by
  simp [after_visits]

mutual
theorem he_traverse_tree_eq (sdk : Sdk) :
    ∀ (n : A3DTreeNode) (stack : StackContent) (d : Nat) (s : Traversal),
      he_traverse_tree sdk stack n d s = after_visits sdk (visits stack n d) s
  | .mk nm t g st tr cs, stack, d, s => by
    rw [he_traverse_tree, he_traverse_node_eq, he_traverse_children_eq sdk cs,
      after_visits_append, visits]
    rfl
theorem he_traverse_children_eq (sdk : Sdk) :
    ∀ (cs : List A3DTreeNode) (stack : StackContent) (c d : Nat) (s : Traversal),
      he_traverse_children sdk stack cs c d s =
        after_visits sdk (visits_children stack cs c d) s
  | [], stack, c, d, s => by
    simp [he_traverse_children, visits_children, after_visits]
  | child :: rest, stack, c, d, s => by
    rw [he_traverse_children, he_traverse_tree_eq sdk child,
      he_traverse_children_eq sdk rest, after_visits_append, visits_children]
end

mutual
theorem visits_preorder :
    ∀ (n : A3DTreeNode) (stack : StackContent) (d : Nat),
      (visits stack n d).map (fun v => (v.1, v.2.1)) = preorder n d
  | .mk nm t g st tr cs, stack, d => by
    rw [visits, preorder, List.map_cons, visits_children_preorder cs]
theorem visits_children_preorder :
    ∀ (cs : List A3DTreeNode) (stack : StackContent) (c d : Nat),
      (visits_children stack cs c d).map (fun v => (v.1, v.2.1)) = preorder_children cs d
  | [], stack, c, d => by simp [visits_children, preorder_children]
  | child :: rest, stack, c, d => by
    rw [visits_children, preorder_children, List.map_append, visits_preorder child,
      visits_children_preorder rest]
end

mutual
theorem preorder_length : ∀ (n : A3DTreeNode) (d : Nat), (preorder n d).length = node_count n
  | .mk nm t g st tr cs, d => by
    rw [preorder, node_count, List.length_cons, preorder_children_length cs, Nat.add_comm]
theorem preorder_children_length :
    ∀ (cs : List A3DTreeNode) (d : Nat), (preorder_children cs d).length = node_count_children cs
  | [], d => by simp [preorder_children, node_count_children]
  | c :: cs, d => by
    rw [preorder_children, node_count_children, List.length_append, preorder_length c,
      preorder_children_length cs]
end

theorem he_extract_color_cases (sdk : Sdk) (n : A3DTreeNode) (cout : List Char) (c : vec4) :
    (∀ st col, n.net_style = some st →
      sdk.A3DGlobalGetGraphRgbColorData st.m_uiRgbColorIndex = some col →
      (he_extract_color sdk n cout c).2 = ![col.m_dRed, col.m_dGreen, col.m_dBlue, 1]) ∧
    (∀ st, n.net_style = some st →
      sdk.A3DGlobalGetGraphRgbColorData st.m_uiRgbColorIndex = none →
      (he_extract_color sdk n cout c).2 = ![7 / 10, 7 / 10, 7 / 10, 1]) ∧
    (n.net_style = none → (he_extract_color sdk n cout c).2 = c) := by
  refine ⟨?_, ?_, ?_⟩
  · intro st col h1 h2
    simp [he_extract_color, h1, h2]
  · intro st h1 h2
    simp [he_extract_color, h1, h2]
  · intro h1
    simp [he_extract_color, h1]

/-- C3 (code evaluated at the failing input): for a node with geometry whose
net style cannot be fetched, `he_extract_color` leaves `color_result` as it
found it (here all zero, not the fallback `(0.7, 0.7, 0.7, 1.0)`), and the
traversal stores that content as the colour of the node's object. -/
theorem he_extract_color_without_net_style :
    styleless_node.net_style = none ∧
    (he_extract_color example_sdk styleless_node [] ![0, 0, 0, 0]).2 = ![0, 0, 0, 0] ∧
    (he_extract_color example_sdk styleless_node [] ![0, 0, 0, 0]).2
      ≠ ![7 / 10, 7 / 10, 7 / 10, 1] ∧
    (he_traverse_tree example_sdk (fun _ => zero_object) styleless_node 0
        ⟨[], ⟨[]⟩⟩).traverse_data.objects
      = [⟨mat4x4_identity, one_triangle_mesh, ![0, 0, 0, 0]⟩] := by
  refine ⟨rfl, rfl, ?_, rfl⟩
  intro h
  have h3 := congrFun h 3
  have e : (he_extract_color example_sdk styleless_node [] ![0, 0, 0, 0]).2 = ![0, 0, 0, 0] :=
    rfl
  rw [e] at h3
  norm_num at h3

/-- C9: `he_traverse_tree` started at the root with depth 0 returns for every
tree; its output is one dump line per node, in depth-first pre-order (every
node once), and the line of a node at depth `d` starts with exactly `2 * d`
spaces before the `N` of `Name: ` and ends with the end of line. -/
theorem he_traverse_tree_dump (sdk : Sdk) (stack : StackContent) (root : A3DTreeNode)
    (s : Traversal) :
    (he_traverse_tree sdk stack root 0 s).cout =
      s.cout ++ ((preorder root 0).map fun v => dump_line sdk v.1 v.2).flatten ∧
    (preorder root 0).length = node_count root ∧
    (preorder root 0).head? = some (root, 0) ∧
    ∀ (n : A3DTreeNode) (d : Nat), ∃ text : List Char,
      dump_line sdk n d = List.replicate (2 * d) ' ' ++ 'N' :: text ++ ['\n'] := by
  refine ⟨?_, preorder_length root 0, ?_, ?_⟩
  · rw [he_traverse_tree_eq, ← visits_preorder root stack 0, List.map_map]
    rfl
  · cases root
    rw [preorder]
    rfl
  · intro n d
    have hN : node_text sdk n = 'N' :: (node_text sdk n).tail := rfl
    exact ⟨(node_text sdk n).tail,
      congrArg (fun t => List.replicate (2 * d) ' ' ++ t ++ ['\n']) hN⟩

theorem sample_tree_traversal :
    (he_traverse_tree example_sdk (fun _ => zero_object) sample_tree 0 ⟨[], ⟨[]⟩⟩).cout =
      ("Name: root; Type: Part; Color: RGB(?;?;?)\n" ++
       "  Name: N/A; Type: N/A; \n" ++
       "  Name: leaf; Type: N/A; Color: N/A; \n").toList ∧
    ((he_traverse_tree example_sdk (fun _ => zero_object) sample_tree 0
        ⟨[], ⟨[]⟩⟩).traverse_data.objects.map
      fun o => o.mesh) = [one_triangle_mesh, one_triangle_mesh] := by
  constructor
  · decide
  · rfl

/-- Two nodes whose net style cannot be fetched keep the contents of their own
local objects, which need not agree. -/
theorem styleless_pair_colours :
    ((he_traverse_tree example_sdk red_then_zero styleless_pair 0
        ⟨[], ⟨[]⟩⟩).traverse_data.objects.map fun o => o.color)
      = [![1, 0, 0, 1], ![0, 0, 0, 0]] := by
  rfl

/-! ## `send_to_openGL` -/

theorem ogl_mesh_data_to_rendering_of_buffers (up : GpuUploader) (gpu : List GpuBuffers)
    (mesh : A3DMeshData) (b : GpuBuffers) (h : mesh_buffers mesh = some b) :
    ogl_mesh_data_to_rendering up gpu mesh =
      some ⟨b, up gpu b, to_GLsizei b.index_buffer.length, gpu ++ [b]⟩ := by
  rw [ogl_mesh_data_to_rendering, h]

theorem int_to_size_t_counter_value (k : Nat) (hk : k ≤ INT_MAX) :
    int_to_size_t (counter_value k) = k := by
  have h1 : INT_MAX = 2147483647 := by decide
  have h2 : SIZE_T_RANGE = 18446744073709551616 := by decide
  simp only [int_to_size_t, counter_value, if_pos hk, h2]
  rw [h1] at hk
  omega

theorem int_to_size_t_counter_value_wrapped :
    int_to_size_t (counter_value (INT_MAX + 1)) = SIZE_T_RANGE - (INT_MAX + 1) := by
  decide

theorem int_increment_counter_value (k : Nat) (hk : k ≤ INT_MAX) :
    int_increment (counter_value k) = counter_value (k + 1) := by
  have h1 : INT_MAX = 2147483647 := by decide
  have h2 : UNS32_RANGE = 4294967296 := by decide
  simp only [int_increment, counter_value, if_pos hk, h1, h2]
  rw [h1] at hk
  split_ifs <;> omega

theorem send_to_openGL_loop_eq (up : GpuUploader) (member : MeshObject → mat4x4)
    (objects : List MeshObject) (m : Nat)
    (hmesh : ∀ o ∈ objects, (mesh_buffers o.mesh).isSome)
    (hm : m ≤ objects.length) (hmax : m ≤ INT_MAX + 1)
    (hstop : m = objects.length ∨ m = INT_MAX + 1)
    (hsize : objects.length ≤ SIZE_T_RANGE - (INT_MAX + 1)) :
    ∀ (r k fuel : Nat) (gpu : List GpuBuffers) (acc : List oglSceneObject),
      k + r = m → r < fuel →
      send_to_openGL_loop up member objects fuel (counter_value k) gpu acc =
        some (acc ++ scene_objects up member gpu ((objects.drop k).take r),
          gpu ++ uploads ((objects.drop k).take r)) := by
  intro r
  induction r with
  | zero =>
    intro k fuel gpu acc hk hfuel
    obtain ⟨f, rfl⟩ : ∃ f, fuel = f + 1 := ⟨fuel - 1, by omega⟩
    have hexit : ¬ int_to_size_t (counter_value k) < objects.length := by
      by_cases hk1 : k ≤ INT_MAX
      · rw [int_to_size_t_counter_value k hk1]
        omega
      · have : k = INT_MAX + 1 := by omega
        rw [this, int_to_size_t_counter_value_wrapped]
        omega
    rw [send_to_openGL_loop, if_neg hexit]
    simp [scene_objects, uploads]
  | succ r ih =>
    intro k fuel gpu acc hk hfuel
    obtain ⟨f, rfl⟩ : ∃ f, fuel = f + 1 := ⟨fuel - 1, by omega⟩
    have hk1 : k ≤ INT_MAX := by omega
    have hlt : k < objects.length := by omega
    have hget : objects[k]? = some objects[k] := List.getElem?_eq_getElem hlt
    have hdrop : objects.drop k = objects[k] :: objects.drop (k + 1) :=
      List.drop_eq_getElem_cons hlt
    obtain ⟨b, hb⟩ := Option.isSome_iff_exists.mp (hmesh _ (List.getElem_mem hlt))
    have hr := ogl_mesh_data_to_rendering_of_buffers up gpu _ b hb
    have hd : ∀ N : mat4x4, mat4x4_dup N = N := fun _ => rfl
    have hv : ∀ v : vec4, vec4_dup v = v := fun _ => rfl
    have h1 : scene_objects up member gpu ((objects.drop k).take (r + 1)) =
        ⟨member objects[k], objects[k].color, up gpu b,
            to_GLsizei b.index_buffer.length⟩ ::
          scene_objects up member (gpu ++ [b]) ((objects.drop (k + 1)).take r) := by
      rw [hdrop, List.take_succ_cons, scene_objects]
      simp only [hr]
    have h2 : uploads ((objects.drop k).take (r + 1)) =
        b :: uploads ((objects.drop (k + 1)).take r) := by
      rw [hdrop, List.take_succ_cons]
      simp only [uploads, List.filterMap_cons, hb]
    rw [send_to_openGL_loop, int_to_size_t_counter_value k hk1, if_pos hlt, hget]
    simp only [hr]
    rw [int_increment_counter_value k hk1, ih (k + 1) f _ _ (by omega) (by omega), h1, h2,
      hd, hv]
    simp

theorem send_to_openGL_eq (up : GpuUploader) (member : MeshObject → mat4x4)
    (gpu : List GpuBuffers) (data : TraverseData) (m : Nat)
    (hmesh : ∀ o ∈ data.objects, (mesh_buffers o.mesh).isSome)
    (hm : m ≤ data.objects.length) (hmax : m ≤ INT_MAX + 1)
    (hstop : m = data.objects.length ∨ m = INT_MAX + 1)
    (hsize : data.objects.length ≤ SIZE_T_RANGE - (INT_MAX + 1)) :
    send_to_openGL up member gpu data =
      some ⟨scene_objects up member gpu (data.objects.take m), data.objects.length,
        gpu ++ uploads (data.objects.take m)⟩ := by
  have h := send_to_openGL_loop_eq up member data.objects m hmesh hm hmax hstop hsize
    m 0 (data.objects.length + 1) gpu [] (Nat.zero_add _) (by omega)
  have h0 : counter_value 0 = 0 := by decide
  rw [h0] at h
  rw [send_to_openGL, h]
  simp

theorem scene_objects_spec (up : GpuUploader) (member : MeshObject → mat4x4) :
    ∀ (os : List MeshObject) (gpu : List GpuBuffers),
      (∀ o ∈ os, (mesh_buffers o.mesh).isSome) →
      (scene_objects up member gpu os).length = os.length ∧
      ∀ (i : Nat) (hi : i < os.length),
        ∃ pair, ogl_mesh_data_to_rendering up (gpu ++ uploads (os.take i)) os[i].mesh
            = some pair ∧
          (scene_objects up member gpu os)[i]? =
            some ⟨member os[i], os[i].color, pair.first, pair.second⟩ := by
  intro os
  induction os with
  | nil => intro gpu _; exact ⟨rfl, fun i hi => absurd hi (Nat.not_lt_zero i)⟩
  | cons o os ih =>
    intro gpu hmesh
    obtain ⟨b, hb⟩ := Option.isSome_iff_exists.mp (hmesh o (List.mem_cons_self _ _))
    have hr := ogl_mesh_data_to_rendering_of_buffers up gpu _ b hb
    obtain ⟨hl, hget⟩ := ih (gpu ++ [b]) fun o' ho' => hmesh o' (List.mem_cons_of_mem _ ho')
    have hso : scene_objects up member gpu (o :: os) =
        ⟨member o, o.color, up gpu b, to_GLsizei b.index_buffer.length⟩ ::
          scene_objects up member (gpu ++ [b]) os := by
      simp [scene_objects, hr]
    refine ⟨by rw [hso, List.length_cons, hl, List.length_cons], ?_⟩
    intro i hi
    cases i with
    | zero =>
      refine ⟨⟨b, up gpu b, to_GLsizei b.index_buffer.length, gpu ++ [b]⟩, ?_, ?_⟩
      · simpa [uploads] using hr
      · rw [hso]
        simp
    | succ j =>
      have hj : j < os.length := by simpa using hi
      obtain ⟨pair, hp, hg⟩ := hget j hj
      refine ⟨pair, ?_, ?_⟩
      · simpa [uploads, hb, List.append_assoc] using hp
      · rw [hso]
        simpa using hg

/-- Within the range of the counter the loop does what it is meant to: for
`n ≤ INT_MAX + 1` objects whose meshes `ogl_mesh_data_to_rendering` converts,
`send_to_openGL` calls `ogl_rendering_loop` with exactly `n` scene objects and
the object count `n`; the `i`-th scene object has the colour of the `i`-th
traversed object, the matrix which the member read at line 23 yields on it, and
the VAO id and index count that `ogl_mesh_data_to_rendering` returns on the
`i`-th mesh after the uploads of the meshes before it. -/
theorem send_to_openGL_scene (ogl_rendering_to_gpu : GpuUploader)
    (mat_transform_model : MeshObject → mat4x4) (gpu : List GpuBuffers)
    (data_traverse : TraverseData)
    (hn : data_traverse.objects.length ≤ INT_MAX + 1)
    (hmesh : ∀ o ∈ data_traverse.objects, (mesh_buffers o.mesh).isSome) :
    ∃ call, send_to_openGL ogl_rendering_to_gpu mat_transform_model gpu data_traverse
        = some call ∧
      call.objects.length = data_traverse.objects.length ∧
      call.count = call.objects.length ∧
      ∀ (i : Nat) (hi : i < data_traverse.objects.length),
        ∃ pair,
          ogl_mesh_data_to_rendering ogl_rendering_to_gpu
              (gpu ++ uploads (data_traverse.objects.take i))
              (data_traverse.objects.get ⟨i, hi⟩).mesh = some pair ∧
          call.objects[i]? =
            some ⟨mat_transform_model (data_traverse.objects.get ⟨i, hi⟩),
              (data_traverse.objects.get ⟨i, hi⟩).color, pair.first, pair.second⟩ := by
  obtain ⟨hl, hget⟩ := scene_objects_spec ogl_rendering_to_gpu mat_transform_model
    data_traverse.objects gpu hmesh
  have heq := send_to_openGL_eq ogl_rendering_to_gpu mat_transform_model gpu data_traverse
    data_traverse.objects.length hmesh (Nat.le_refl _) hn (Or.inl rfl) (by
      have h1 : INT_MAX + 1 ≤ SIZE_T_RANGE - (INT_MAX + 1) := by decide
      omega)
  rw [List.take_length] at heq
  exact ⟨_, heq, hl, hl.symm, hget⟩

theorem two_objects_scene :
    ∃ call, send_to_openGL (fun _ _ => 1) (fun o => o.matrix_position) [] two_objects
        = some call ∧
      call.objects.length = two_objects.objects.length ∧
      call.count = call.objects.length ∧
      ∀ (i : Nat) (hi : i < two_objects.objects.length),
        ∃ pair,
          ogl_mesh_data_to_rendering (fun _ _ => 1)
              ([] ++ uploads (two_objects.objects.take i))
              (two_objects.objects.get ⟨i, hi⟩).mesh = some pair ∧
          call.objects[i]? =
            some ⟨(two_objects.objects.get ⟨i, hi⟩).matrix_position,
              (two_objects.objects.get ⟨i, hi⟩).color, pair.first, pair.second⟩ :=
  send_to_openGL_scene (fun _ _ => 1) (fun o => o.matrix_position) [] two_objects
    (by decide) (by decide)

end HeBasicViewer
